import Mathlib

/-!
# Verification of the NDTV extractor module (`youtube_dl/extractor/ndtv.py`)

Shallow embedding of the seven extractor classes of `ndtv.py`
(`NDTVIE`, `NDTVKhabarIE`, `NDTVAutoIE`, `NDTVMoviesFoodSwirlsterIE`,
`NDTVSportsIE`, `NDTVGadgetsIE`, `NDTVDoctorIE`) together with models of
the helper functions they import (`js_to_json`/`_parse_json`,
`unified_strdate`, `parse_duration`, `int_or_none`,
`compat_urllib_parse_unquote_plus`, `clean_html`, `remove_end`,
`_html_search_meta`, `_og_search_*`, `_search_regex`), which live outside
the source tree under verification.

Documents are modelled as raw character lists plus the meta-tag /
open-graph views that the modelled HTML helpers read.  The per-variant
player-data regular expressions are embedded directly as searches over
character lists, reproducing Python `re.search` semantics for the exact
patterns appearing in the source (leftmost match; greedy `\s*` with
backtracking; non-greedy `(.+?)` taking the shortest capture; greedy
`(.+)` taking the longest; `.` not matching a newline).
-/

namespace Ndtv

/-- Python `\s` on the ASCII range, as used by the patterns in the source. -/
def isWS (c : Char) : Bool :=
  c = ' ' || c = '\t' || c = '\n' || c = '\r' || c = '\x0b' || c = '\x0c'

/-- Strip a literal from the front of a character list: the embedding of a
literal fragment of a regex pattern. -/
def stripLit : List Char → List Char → Option (List Char)
  | [], s => some s
  | _ :: _, [] => none
  | l :: ls, c :: cs => if l = c then stripLit ls cs else none

/-- Strip one expected character. -/
def stripChar (x : Char) : List Char → Option (List Char)
  | [] => none
  | c :: cs => if c = x then some cs else none

/-- Drop the maximal run of whitespace: deterministic `\s*` when the next
pattern element cannot match a whitespace character. -/
def skipWS : List Char → List Char
  | [] => []
  | c :: cs => if isWS c then skipWS cs else c :: cs

/-- `webpage.replace('\n', ' ')` as used by four of the variants. -/
def replaceNL (s : List Char) : List Char :=
  s.map (fun c => if c = '\n' then ' ' else c)

/-- Leftmost-match search: try the position matcher at every start
position from left to right and return the first success, the embedding
of `re.search` position scanning. -/
def scanFirst (f : List Char → Option α) : List Char → Option α
  | [] => f []
  | c :: cs => (f (c :: cs)).orElse (fun _ => scanFirst f cs)

/-- Non-greedy capture `(.+?)` followed by a deterministic tail matcher:
consume at least one character (never a newline, Python `.`), preferring
the shortest capture whose remainder satisfies the tail. -/
def capNG (tailP : List Char → Bool) (acc : List Char) : List Char → Option (List Char)
  | [] => none
  | c :: cs =>
    if c = '\n' then none
    else if tailP cs then some (acc ++ [c])
    else capNG tailP (acc ++ [c]) cs

/-- Greedy capture `(.+)` followed by a deterministic tail matcher:
consume at least one non-newline character, preferring the longest
capture whose remainder satisfies the tail. -/
def capG (tailP : List Char → Bool) : List Char → Option (List Char)
  | [] => none
  | c :: cs =>
    if c = '\n' then none
    else
      match capG tailP cs with
      | some cap => some (c :: cap)
      | none => if tailP cs then some [c] else none

/-- Backtracking greedy `\s*` in front of a capture group that can itself
match whitespace: try the capture after the whole whitespace run first,
then give back one whitespace character at a time. -/
def wsBT (f : List Char → Option α) : List Char → Option α
  | [] => f []
  | c :: cs =>
    if isWS c then
      match wsBT f cs with
      | some r => some r
      | none => f (c :: cs)
    else f (c :: cs)

/-! ## Player-data boundary searches, one per variant's pattern -/

/-- The shared front of five of the six patterns:
`__html5playerdata\s*=\s*` followed by a capture.  The `\s*` before the
`=` is deterministic (whitespace can never match the `=`); the `\s*`
after it backtracks into the capture via `wsBT`. -/
def playerdataSearch (capF : List Char → Option (List Char)) (page : List Char) :
    Option (List Char) :=
  scanFirst
    (fun s =>
      match stripLit "__html5playerdata".data s with
      | none => none
      | some s1 =>
        match stripChar '=' (skipWS s1) with
        | none => none
        | some s2 => wsBT capF s2)
    page

/-- Tail of `NDTVIE`'s pattern: `,\s*__right_margin_top`. -/
def tailWWW (s : List Char) : Bool :=
  match stripChar ',' s with
  | none => false
  | some r => (stripLit "__right_margin_top".data (skipWS r)).isSome

/-- `NDTVIE._real_extract` player-data search:
`__html5playerdata\s*=\s*(.+?),\s*__right_margin_top` over the raw page. -/
def NDTVIE_playerdata (page : List Char) : Option (List Char) :=
  playerdataSearch (capNG tailWWW []) page

/-- Tail of `NDTVKhabarIE`'s pattern: `\s*;\s*if`. -/
def tailKhabar (s : List Char) : Bool :=
  match stripChar ';' (skipWS s) with
  | none => false
  | some r => (stripLit "if".data (skipWS r)).isSome

/-- `NDTVKhabarIE._real_extract` player-data search:
`__html5playerdata\s*=\s*(.+?)\s*;\s*if` over the raw page. -/
def NDTVKhabarIE_playerdata (page : List Char) : Option (List Char) :=
  playerdataSearch (capNG tailKhabar []) page

/-- Tail of `NDTVAutoIE`'s pattern: `\);`. -/
def tailAuto (s : List Char) : Bool :=
  (stripLit ");".data s).isSome

/-- `NDTVAutoIE._real_extract` player-data search:
`videoPlayerScript\((.+?)\);` over the newline-replaced page. -/
def NDTVAutoIE_playerdata (page : List Char) : Option (List Char) :=
  scanFirst
    (fun s => do
      let s1 ← stripLit "videoPlayerScript(".data s
      capNG tailAuto [] s1)
    (replaceNL page)

/-- Tail of `NDTVMoviesFoodSwirlsterIE`'s pattern: `,\s*__html5`. -/
def tailMovies (s : List Char) : Bool :=
  match stripChar ',' s with
  | none => false
  | some r => (stripLit "__html5".data (skipWS r)).isSome

/-- `NDTVMoviesFoodSwirlsterIE._real_extract` player-data search:
`__html5playerdata\s*=\s*(.+),\s*__html5` — note the greedy `(.+)` —
over the newline-replaced page. -/
def NDTVMoviesFoodSwirlsterIE_playerdata (page : List Char) : Option (List Char) :=
  playerdataSearch (capG tailMovies) (replaceNL page)

/-- Tail of `NDTVSportsIE`'s pattern: `\s*var\s+__by_line`. -/
def tailSports (s : List Char) : Bool :=
  match stripLit "var".data (skipWS s) with
  | none => false
  | some r =>
    match r with
    | [] => false
    | c :: _ => isWS c && (stripLit "__by_line".data (skipWS r)).isSome

/-- `NDTVSportsIE._real_extract` player-data search:
`__html5playerdata\s*=\s*(.+?)\s*var\s+__by_line` over the
newline-replaced page. -/
def NDTVSportsIE_playerdata (page : List Char) : Option (List Char) :=
  playerdataSearch (capNG tailSports []) (replaceNL page)

/-- Tail of `NDTVGadgetsIE`'s pattern: `;\s*var\s*__right`. -/
def tailGadgets (s : List Char) : Bool :=
  match stripChar ';' s with
  | none => false
  | some r =>
    match stripLit "var".data (skipWS r) with
    | none => false
    | some r2 => (stripLit "__right".data (skipWS r2)).isSome

/-- `NDTVGadgetsIE._real_extract` player-data search:
`__html5playerdata\s*=\s*(.+?);\s*var\s*__right` over the
newline-replaced page. -/
def NDTVGadgetsIE_playerdata (page : List Char) : Option (List Char) :=
  playerdataSearch (capNG tailGadgets []) (replaceNL page)

/-! ## Inline field regexes used directly on the raw page -/

/-- Capture `([^"]+)"`: the nonempty run of non-quote characters up to
the next double quote, which must exist. -/
def quotedCapture : List Char → Option (List Char)
  | [] => none
  | '\"' :: _ => none
  | c :: cs => quotedCaptureAux [c] cs
where
  quotedCaptureAux (acc : List Char) : List Char → Option (List Char)
    | [] => none
    | '\"' :: _ => some acc
    | c :: cs => quotedCaptureAux (acc ++ [c]) cs

/-- A position matcher for the common shape `KEY"\s*:\s*"([^"]+)"` where
`KEY"` is the literal `lit`. -/
def keyColonQuoted (lit : List Char) (s : List Char) : Option (List Char) := do
  let s1 ← stripLit lit s
  let s2 ← stripChar ':' (skipWS s1)
  let s3 ← stripChar '\"' (skipWS s2)
  quotedCapture s3

/-- The inline upload-date pattern `datePublished"\s*:\s*"([^"]+)"`
applied to the raw page (all seven variants). -/
def searchDatePublished (page : List Char) : Option String :=
  (scanFirst (keyColonQuoted "datePublished\"".data) page).map (fun cs => ⟨cs⟩)

/-- `NDTVDoctorIE`'s title pattern `\"title\"\s*:\s*\"([^\"]+)\"`. -/
def searchDoctorTitle (page : List Char) : Option String :=
  (scanFirst (keyColonQuoted "\"title\"".data) page).map (fun cs => ⟨cs⟩)

/-- `NDTVDoctorIE`'s media pattern `\"media\"\s*:\s*\"([^\"]+)\"`. -/
def searchDoctorMedia (page : List Char) : Option String :=
  (scanFirst (keyColonQuoted "\"media\"".data) page).map (fun cs => ⟨cs⟩)

/-- `NDTVDoctorIE`'s duration pattern `\"dur\"s*:\s*\"([^\"]+)\"` — the
`s*` is a literal star over the character `s` (the pattern lacks a
backslash), so the matcher skips a run of `s` characters before the
colon. -/
def searchDoctorDur (page : List Char) : Option String :=
  (scanFirst
    (fun s => do
      let s1 ← stripLit "\"dur\"".data s
      let s2 ← stripChar ':' (skipSChars s1)
      let s3 ← stripChar '\"' (skipWS s2)
      quotedCapture s3)
    page).map (fun cs => ⟨cs⟩)
where
  skipSChars : List Char → List Char
    | [] => []
    | c :: cs => if c = 's' then skipSChars cs else c :: cs

/-- The spec's own description of boundary extraction (refinement side,
stated from the spec's words, not from the source): find the first
occurrence of the start marker, then the first occurrence of the end
marker strictly after it, and return the text strictly between them. -/
def specFirstBetween (startM endM text : List Char) : Option (List Char) :=
  match splitAtFirst startM text with
  | none => none
  | some (_, afterStart) =>
    match splitAtFirst endM afterStart with
    | none => none
    | some (between, _) => some between
where
  /-- Split at the first occurrence of a marker, returning the text
  before it and the text after it. -/
  splitAtFirst (m : List Char) : List Char → Option (List Char × List Char)
    | [] => match stripLit m [] with
      | some r => some ([], r)
      | none => none
    | c :: cs => match stripLit m (c :: cs) with
      | some r => some ([], r)
      | none => match splitAtFirst m cs with
        | some (pre, post) => some (c :: pre, post)
        | none => none

/-! ## Structured values and the permissive literal parser -/

/-- A scalar value inside the parsed player-data object. -/
inductive JVal where
  | str (s : String)
  | num (n : Int)
  | bool (b : Bool)
  | null
deriving Repr, DecidableEq

/-- Python truthiness of a scalar value (`None`, `''`, `0`, `False` are
falsy), used to embed the `or` chains of the source. -/
def jTruthy : JVal → Bool
  | .str s => s ≠ ""
  | .num n => n ≠ 0
  | .bool b => b
  | .null => false

/-- `a or b` on optional scalar values: Python `or` returns the second
operand when the first is missing or falsy. -/
def jOr (a b : Option JVal) : Option JVal :=
  match a with
  | some v => if jTruthy v then some v else b
  | none => b

/-- `a or b` on optional strings (an empty string is falsy). -/
def sOr (a b : Option String) : Option String :=
  match a with
  | some s => if s = "" then b else some s
  | none => b

/-- Value of a decimal digit run, accumulator style (most significant
first). -/
def digitsVal (acc : Nat) : List Char → Nat
  | [] => acc
  | c :: cs => digitsVal (acc * 10 + (c.toNat - 48)) cs

/-- Character allowed in a bare (unquoted) object key. -/
def bareKeyChar (c : Char) : Bool :=
  c.isAlphanum || c = '_'

/-- Parse a run of characters satisfying `p`, at least one. -/
def takeRun (p : Char → Bool) : List Char → Option (List Char × List Char)
  | [] => none
  | c :: cs =>
    if p c then
      match takeRun p cs with
      | some (run, rest) => some (c :: run, rest)
      | none => some ([c], cs)
    else none

/-- Parse a quoted string with the given delimiter; no escape handling,
matching the permissive literals the pages embed. -/
def takeQuoted (q : Char) : List Char → Option (List Char × List Char)
  | [] => none
  | c :: cs => if c = q then takeQuotedAux q [] cs else none
where
  takeQuotedAux (q : Char) (acc : List Char) : List Char → Option (List Char × List Char)
    | [] => none
    | c :: cs => if c = q then some (acc, cs) else takeQuotedAux q (acc ++ [c]) cs

/-- Modelled from the spec: `js_to_json` (youtube_dl/utils.py) composed
with `InfoExtractor._parse_json` (extractor/common.py) is not under
`src/`.  Per §4.3 the literal normalizer quotes bare identifier keys,
accepts single- or double-quoted strings, tolerates a trailing comma,
keeps boolean/null literals, and then parses strictly, failing with a
soft error otherwise.  Modelled as a parser of flat object literals
`{key: value, ...}` into a key–value list, returning `none` exactly when
the text is not such a literal. -/
def parseKey : List Char → Option (String × List Char)
  | [] => none
  | c :: cs =>
    if c = '\'' || c = '\"' then
      (takeQuoted c (c :: cs)).map (fun (k, r) => (⟨k⟩, r))
    else
      (takeRun bareKeyChar (c :: cs)).map (fun (k, r) => (⟨k⟩, r))

/-- Modelled from the spec (see `parseKey`): one scalar value of a
permissive literal: a single- or double-quoted string, an integer, or a
bare `true`/`false`/`null` token. -/
def parseVal (s : List Char) : Option (JVal × List Char) :=
  match s with
  | [] => none
  | c :: cs =>
    if c = '\'' || c = '\"' then
      (takeQuoted c (c :: cs)).map (fun (v, r) => (.str ⟨v⟩, r))
    else if c = '-' then
      (takeRun Char.isDigit cs).map (fun (d, r) => (.num (-(digitsVal 0 d : Int)), r))
    else if c.isDigit then
      (takeRun Char.isDigit (c :: cs)).map (fun (d, r) => (.num (digitsVal 0 d), r))
    else
      match stripLit "true".data (c :: cs) with
      | some r => some (.bool true, r)
      | none =>
        match stripLit "false".data (c :: cs) with
        | some r => some (.bool false, r)
        | none =>
          match stripLit "null".data (c :: cs) with
          | some r => some (.null, r)
          | none => none

/-- Modelled from the spec (see `parseKey`): the entry list of a flat
object literal, ending at the closing brace, tolerating a trailing
comma.  Fuel-driven recursion over the remaining text. -/
def parseEntries : Nat → List Char → Option (List (String × JVal) × List Char)
  | 0, _ => none
  | fuel + 1, s =>
    match stripChar '}' (skipWS s) with
    | some r => some ([], r)
    | none =>
    match parseKey (skipWS s) with
    | none => none
    | some (k, r1) =>
      match stripChar ':' (skipWS r1) with
      | none => none
      | some r2 =>
        match parseVal (skipWS r2) with
        | none => none
        | some (v, r3) =>
          match stripChar ',' (skipWS r3) with
          | some r4 =>
            (parseEntries fuel r4).map (fun (es, rest) => ((k, v) :: es, rest))
          | none =>
            match stripChar '}' (skipWS r3) with
            | some r4 => some ([(k, v)], r4)
            | none => none

/-- Modelled from the spec (see `parseKey`): the whole literal
normalizer: a flat `{...}` object literal parsed to a key–value list;
any other input is a parse failure (`none`). -/
def parseJsLiteral (s : List Char) : Option (List (String × JVal)) :=
  match stripChar '{' (skipWS s) with
  | none => none
  | some r =>
    match parseEntries (r.length + 1) r with
    | none => none
    | some (es, rest) => if skipWS rest = [] then some es else none

/-- Python `dict.get`: the last binding of a key wins (later duplicate
keys override earlier ones in a dict literal). -/
def dictGet (d : List (String × JVal)) (k : String) : Option JVal :=
  (d.reverse.find? (fun kv => kv.1 == k)).map (fun kv => kv.2)

/-! ## Scalar normalizers (modelled from the spec, §4.5) -/

/-- Parse a nonempty run of decimal digits as a natural number. -/
def digitRunToNat? (ds : List Char) : Option Nat :=
  if ds ≠ [] && ds.all Char.isDigit then some (digitsVal 0 ds) else none

/-- Modelled from the spec: `youtube_dl.utils.int_or_none` is not under
`src/` and the spec does not describe it; modelled per its standard
semantics as Python `int(v)` with any conversion failure giving `None`:
an integer stays itself, a boolean becomes 0 or 1, a string of optional
sign and digits (surrounding whitespace allowed) converts, and anything
else yields no value. -/
def int_or_none : Option JVal → Option Int
  | some (.num n) => some n
  | some (.bool b) => some (if b then 1 else 0)
  | some (.str s) =>
    let t := (skipWS s.data).reverse
    let t := (skipWS t).reverse
    match t with
    | '-' :: ds => (digitRunToNat? ds).map (fun n => -(n : Int))
    | '+' :: ds => (digitRunToNat? ds).map (fun n => (n : Int))
    | ds => (digitRunToNat? ds).map (fun n => (n : Int))
  | _ => none

/-- Modelled from the spec: `youtube_dl.utils.parse_duration` is not
under `src/`; per §4.5 the duration normalizer accepts either an
integer/string count of seconds or a clock-formatted string
(`HH:MM:SS`/`MM:SS`) and produces whole seconds, and unparseable input
yields no value. -/
def parse_duration : Option JVal → Option Int
  | some (.num n) => some n
  | some (.str s) =>
    match (s.data.splitOn ':').map digitRunToNat? with
    | [some n] => some (n : Int)
    | [some m, some s] => some ((m * 60 + s : Nat) : Int)
    | [some h, some m, some s] => some ((h * 3600 + m * 60 + s : Nat) : Int)
    | _ => none
  | _ => none

/-- Modelled from the spec: `youtube_dl.utils.unified_strdate` is not
under `src/`; per §4.5 the date normalizer accepts an explicit meta-tag
value or an ISO-8601-like field and produces canonical `YYYYMMDD`,
returning no value when nothing parses and never raising.  Modelled to
accept a `YYYY-MM-DD` prefix (ignoring any time-of-day remainder) or an
already canonical `YYYYMMDD` string. -/
def unified_strdate : Option String → Option String
  | none => none
  | some s =>
    match s.data with
    | y1 :: y2 :: y3 :: y4 :: '-' :: m1 :: m2 :: '-' :: d1 :: d2 :: _ =>
      if [y1, y2, y3, y4, m1, m2, d1, d2].all Char.isDigit then
        some ⟨[y1, y2, y3, y4, m1, m2, d1, d2]⟩
      else none
    | ds =>
      if ds.length = 8 && ds.all Char.isDigit then some ⟨ds⟩ else none

/-- An untyped Python fault escaping `_real_extract`, or the typed
extraction error that a fatal lookup raises. -/
inductive PyFault where
  | typeError
  | extractorError
deriving Repr, DecidableEq

/-- Percent-decode one string with `+` as space: `%XX` with two hex
digits becomes the character with that code, an invalid escape is kept
literally. -/
def unquoteStr : List Char → List Char
  | [] => []
  | '+' :: cs => ' ' :: unquoteStr cs
  | '%' :: a :: b :: cs =>
    match hexVal a, hexVal b with
    | some ha, some hb => Char.ofNat (ha * 16 + hb) :: unquoteStr cs
    | _, _ => '%' :: unquoteStr (a :: b :: cs)
  | c :: cs => c :: unquoteStr cs
where
  hexVal (c : Char) : Option Nat :=
    let n := c.toNat
    if 48 ≤ n && n ≤ 57 then some (n - 48)
    else if 97 ≤ n && n ≤ 102 then some (n - 87)
    else if 65 ≤ n && n ≤ 70 then some (n - 55)
    else none

/-- Modelled from the spec: `compat_urllib_parse_unquote_plus` is not
under `src/`; per §4.5 it is standard percent-decoding with `+` treated
as space.  Applied to a missing value (`None`) or a non-string it
raises a `TypeError`, an untyped fault. -/
def unquote_plus : Option JVal → Except PyFault String
  | some (.str s) => .ok ⟨unquoteStr s.data⟩
  | _ => .error .typeError

/-- Modelled from the spec: `youtube_dl.utils.remove_end` is not under
`src/`; it removes the given suffix when present and is `None`-safe. -/
def remove_end (s : Option String) (suffix : String) : Option String :=
  match s with
  | none => none
  | some s =>
    if suffix.data <:+ s.data then some ⟨s.data.take (s.data.length - suffix.data.length)⟩
    else some s

/-- Modelled from the spec: `youtube_dl.utils.clean_html` is not under
`src/`; per §2 it turns HTML-entity text into plain text.  Modelled as
decoding the common entities `&amp;` `&lt;` `&gt;` `&quot;` `&#39;` and
trimming surrounding whitespace; `None`-safe. -/
def cleanHtmlChars : List Char → List Char
  | [] => []
  | '&' :: 'a' :: 'm' :: 'p' :: ';' :: cs => '&' :: cleanHtmlChars cs
  | '&' :: 'l' :: 't' :: ';' :: cs => '<' :: cleanHtmlChars cs
  | '&' :: 'g' :: 't' :: ';' :: cs => '>' :: cleanHtmlChars cs
  | '&' :: 'q' :: 'u' :: 'o' :: 't' :: ';' :: cs => '\"' :: cleanHtmlChars cs
  | '&' :: '#' :: '3' :: '9' :: ';' :: cs => '\'' :: cleanHtmlChars cs
  | c :: cs => c :: cleanHtmlChars cs

/-- `clean_html`, `None`-safe (see `cleanHtmlChars`). -/
def clean_html : Option String → Option String
  | none => none
  | some s => some ⟨(skipWS ((skipWS (cleanHtmlChars s.data)).reverse)).reverse⟩

/-- What Python `print x` shows for an optional string value. -/
def pyShow : Option String → String
  | none => "None"
  | some s => s

/-! ## Documents and the canonical record -/

/-- An already-fetched document: the raw text the inline regexes and
boundary searches run over, plus the meta-tag and open-graph views read
by the modelled HTML helpers of `extractor/common.py` (not under
`src/`): per §4.4 a meta-tag lookup reads a named HTML meta attribute
and the open-graph fallbacks read the standard social-metadata tags. -/
structure Page where
  text : List Char
  meta : List (String × String)
  ogTitle : Option String
  ogDescription : Option String
  ogThumbnail : Option String

/-- Modelled from the spec: `InfoExtractor._html_search_meta` is not
under `src/`; per §4.4 it reads a named HTML meta attribute from the
page, returning the default (`None` in every call the source makes)
when absent. -/
def html_search_meta (name : String) (p : Page) : Option String :=
  (p.meta.find? (fun kv => kv.1 == name)).map (fun kv => kv.2)

/-- Modelled from the spec: `InfoExtractor._og_search_thumbnail` is not
under `src/`; a non-fatal open-graph lookup. -/
def og_search_thumbnail (p : Page) : Option String := p.ogThumbnail

/-- Modelled from the spec: `InfoExtractor._og_search_description` is
not under `src/`; a non-fatal open-graph lookup. -/
def og_search_description (p : Page) : Option String := p.ogDescription

/-- Modelled from the spec: `InfoExtractor._og_search_title` is not
under `src/`; unlike the description and thumbnail variants it is fatal
by default, raising an extraction error when the tag is absent. -/
def og_search_title (p : Page) : Except PyFault String :=
  match p.ogTitle with
  | some s => .ok s
  | none => .error .extractorError

/-- The dictionary `_real_extract` returns: every field the source ever
sets, each optional since `dict.get` can give `None`. -/
structure InfoDict where
  id : Option JVal := none
  url : Option JVal := none
  title : Option JVal := none
  description : Option JVal := none
  duration : Option Int := none
  upload_date : Option String := none
  thumbnail : Option String := none
deriving Repr, DecidableEq

/-- The upload-date fallback chain shared verbatim by all seven
variants: meta `publish-date`, else meta `uploadDate`, else the inline
`datePublished"` pattern, the result fed to `unified_strdate`. -/
def uploadDateChain (p : Page) : Option String :=
  unified_strdate
    (sOr (html_search_meta "publish-date" p)
      (sOr (html_search_meta "uploadDate" p) (searchDatePublished p.text)))

/-! ## The seven `_real_extract` methods -/

/-- `NDTVIE._real_extract` (www/profit variant), given the fetched page:
if the player-data pattern matches, parse the literal (defaulting to the
empty mapping on parse failure, `... or {}`) and build the info dict;
otherwise return the empty dict `{}` (modelled as `none`). -/
def NDTVIE_real_extract (p : Page) : Option InfoDict :=
  match NDTVIE_playerdata p.text with
  | none => none
  | some pd =>
    let j := (parseJsLiteral pd).getD []
    some {
      id := dictGet j "id"
      url := jOr (dictGet j "media_mp4") (dictGet j "media")
      title := dictGet j "title"
      description := dictGet j "description"
      duration := int_or_none (dictGet j "dur")
      upload_date := uploadDateChain p
      thumbnail := og_search_thumbnail p }

/-- `NDTVKhabarIE._real_extract` (khabar variant). -/
def NDTVKhabarIE_real_extract (p : Page) : Option InfoDict :=
  match NDTVKhabarIE_playerdata p.text with
  | none => none
  | some pd =>
    let j := (parseJsLiteral pd).getD []
    some {
      id := dictGet j "id"
      url := jOr (dictGet j "media_mp4") (dictGet j "media")
      title := dictGet j "title"
      description := dictGet j "description"
      duration := int_or_none (dictGet j "dur")
      upload_date := uploadDateChain p
      thumbnail := og_search_thumbnail p }

/-- `NDTVAutoIE._real_extract` (auto variant): title and description go
through `compat_urllib_parse_unquote_plus`, which faults on a missing
value; the media URL comes from the `filePath` key and the duration
from the `duration` key via `int_or_none`. -/
def NDTVAutoIE_real_extract (p : Page) : Except PyFault (Option InfoDict) :=
  match NDTVAutoIE_playerdata p.text with
  | none => .ok none
  | some pd =>
    let j := (parseJsLiteral pd).getD []
    match unquote_plus (dictGet j "title") with
    | .error e => .error e
    | .ok t =>
      match unquote_plus (dictGet j "description") with
      | .error e => .error e
      | .ok d =>
        .ok (some {
          id := dictGet j "id"
          url := dictGet j "filePath"
          title := some (.str t)
          description := some (.str d)
          duration := int_or_none (dictGet j "duration")
          upload_date := uploadDateChain p
          thumbnail := og_search_thumbnail p })

/-- `NDTVMoviesFoodSwirlsterIE._real_extract` (movies/food/swirlster
variant): like the www variant but with the greedy boundary pattern,
`media` only, and percent/plus-decoded title and description. -/
def NDTVMoviesFoodSwirlsterIE_real_extract (p : Page) : Except PyFault (Option InfoDict) :=
  match NDTVMoviesFoodSwirlsterIE_playerdata p.text with
  | none => .ok none
  | some pd =>
    let j := (parseJsLiteral pd).getD []
    match unquote_plus (dictGet j "title") with
    | .error e => .error e
    | .ok t =>
      match unquote_plus (dictGet j "description") with
      | .error e => .error e
      | .ok d =>
        .ok (some {
          id := dictGet j "id"
          url := dictGet j "media"
          title := some (.str t)
          description := some (.str d)
          duration := int_or_none (dictGet j "dur")
          upload_date := uploadDateChain p
          thumbnail := og_search_thumbnail p })

/-- `NDTVSportsIE._real_extract` (sports variant): duration goes through
`parse_duration` instead of `int_or_none`. -/
def NDTVSportsIE_real_extract (p : Page) : Option InfoDict :=
  match NDTVSportsIE_playerdata p.text with
  | none => none
  | some pd =>
    let j := (parseJsLiteral pd).getD []
    some {
      id := dictGet j "id"
      url := dictGet j "media"
      title := dictGet j "title"
      description := dictGet j "description"
      duration := parse_duration (dictGet j "dur")
      upload_date := uploadDateChain p
      thumbnail := og_search_thumbnail p }

/-- `NDTVGadgetsIE._real_extract` (gadgets variant): duration goes
through `parse_duration`. -/
def NDTVGadgetsIE_real_extract (p : Page) : Option InfoDict :=
  match NDTVGadgetsIE_playerdata p.text with
  | none => none
  | some pd =>
    let j := (parseJsLiteral pd).getD []
    some {
      id := dictGet j "id"
      url := dictGet j "media"
      title := dictGet j "title"
      description := dictGet j "description"
      duration := parse_duration (dictGet j "dur")
      upload_date := uploadDateChain p
      thumbnail := og_search_thumbnail p }

/-- The title source of `NDTVDoctorIE._real_extract`: the inline
`"title"` pattern (non-fatal, default `None`) `or` the fatal open-graph
title; Python `or` also skips an empty regex result. -/
def doctorTitleSource (p : Page) : Except PyFault String :=
  match searchDoctorTitle p.text with
  | some s => if s = "" then og_search_title p else .ok s
  | none => og_search_title p

/-- The fatal media lookup of `NDTVDoctorIE._real_extract`:
`self._search_regex(r"\"media\"\s*:\s*\"([^\"]+)\"", webpage, 'video
filename')` has no default and `fatal` defaults to true, so a page
without the pattern raises an extraction error. -/
def doctorMedia (p : Page) : Except PyFault String :=
  match searchDoctorMedia p.text with
  | some s => .ok s
  | none => .error .extractorError

/-- The description computed by `NDTVDoctorIE._real_extract`:
`clean_html(remove_end(self._og_search_description(webpage), ' (Read more)'))`. -/
def doctorDescription (p : Page) : Option String :=
  clean_html (remove_end (og_search_description p) " (Read more)")

/-- `NDTVDoctorIE._real_extract` (doctor variant): no structured
literal.  The title comes from `doctorTitleSource` and is
percent/plus-decoded either way; the media URL lookup `doctorMedia` is
fatal; the description `doctorDescription` is printed to standard
output (the `print description` statement) before the dict is
returned; the id is the identifier captured from the URL.  The result
carries the list of lines written to standard output. -/
def NDTVDoctorIE_real_extract (video_id : String) (p : Page) :
    Except PyFault (InfoDict × List String) :=
  match doctorTitleSource p with
  | .error e => .error e
  | .ok tsrc =>
    match doctorMedia p with
    | .error e => .error e
    | .ok video_url =>
      .ok ({
        id := some (.str video_id)
        url := some (.str video_url)
        title := some (.str ⟨unquoteStr tsrc.data⟩)
        description := (doctorDescription p).map .str
        duration := parse_duration ((searchDoctorDur p.text).map .str)
        upload_date := uploadDateChain p
        thumbnail := og_search_thumbnail p }, [pyShow (doctorDescription p)])

/-! ## The URL router: the seven `_VALID_URL` patterns

Each pattern is `https?://HOSTS\.ndtv\.com/(?:[^/]+/)*videos?/?(?:[^/]+/)*[^/?^&]+-(?P<id>\d+)`
with a per-variant host alternation.  Modelled from the spec for the
dispatch convention: `InfoExtractor.suitable` (extractor/common.py, not
under `src/`) applies the pattern anchored at the start of the URL
(`re.match`), per §4.1's router contract. -/

/-- Characters allowed by the final `[^/?^&]+` class. -/
def slugChar (c : Char) : Bool :=
  c ≠ '/' && c ≠ '?' && c ≠ '^' && c ≠ '&'

/-- Consume one `[^/]+/` segment: at least one non-slash character, then
the first slash.  Each star iteration is deterministic because `[^/]`
can never match the closing slash. -/
def afterSeg : List Char → Option (List Char)
  | [] => none
  | c :: cs => if c = '/' then none else afterSegAux cs
where
  afterSegAux : List Char → Option (List Char)
    | [] => none
    | c :: cs => if c = '/' then some cs else afterSegAux cs

/-- All suffixes reachable by `(?:[^/]+/)*` (fuel-driven; the fuel is
an upper bound on the iteration count). -/
def segStarPositions : Nat → List Char → List (List Char)
  | 0, s => [s]
  | fuel + 1, s =>
    s :: (match afterSeg s with
      | none => []
      | some r => segStarPositions fuel r)

/-- All suffixes reachable by `videos?/?` from a given position. -/
def afterVideos (s : List Char) : List (List Char) :=
  match stripLit "video".data s with
  | none => []
  | some r =>
    let withS := match r with
      | 's' :: r2 => [r, r2]
      | _ => [r]
    withS.flatMap (fun q => match q with
      | '/' :: q2 => [q, q2]
      | _ => [q])

/-- Does `[^/?^&]+-\d+` match a prefix of the text: at least one slug
character, a dash, then a digit (the id group). -/
def idTailMatch : List Char → Bool
  | [] => false
  | c :: cs => slugChar c && idTailAux cs
where
  idTailAux : List Char → Bool
    | [] => false
    | c :: cs =>
      (c = '-' && (match cs with
        | d :: _ => d.isDigit
        | [] => false))
      || (slugChar c && idTailAux cs)

/-- Does the path part
`(?:[^/]+/)*videos?/?(?:[^/]+/)*[^/?^&]+-(?P<id>\d+)` match a prefix of
the text after `HOST.ndtv.com/`. -/
def pathTailMatch (s : List Char) : Bool :=
  (segStarPositions s.length s).any (fun q =>
    (afterVideos q).any (fun r =>
      (segStarPositions r.length r).any idTailMatch))

/-- The host alternations of the seven variants, in source order:
`NDTVIE`, `NDTVKhabarIE`, `NDTVAutoIE`, `NDTVMoviesFoodSwirlsterIE`,
`NDTVSportsIE`, `NDTVGadgetsIE`, `NDTVDoctorIE`. -/
def hostAlts : Fin 7 → List (List Char)
  | 0 => ["www".data, "profit".data]
  | 1 => ["khabar".data]
  | 2 => ["auto".data]
  | 3 => ["movies".data, "food".data, "swirlster".data]
  | 4 => ["sports".data]
  | 5 => ["gadgets".data]
  | 6 => ["doctor".data]

/-- `https?://`: deterministic because a URL beginning `https://` can
never satisfy the branch without the `s` (the `:` would have to match
the `s`). -/
def schemeRest (url : List Char) : Option (List Char) :=
  match stripLit "https://".data url with
  | some r => some r
  | none => stripLit "http://".data url

/-- Does the given variant's `_VALID_URL` pattern match the URL
(anchored at the start, as `re.match` does). -/
def validURLMatch (v : Fin 7) (url : List Char) : Bool :=
  match schemeRest url with
  | none => false
  | some r =>
    (hostAlts v).any (fun h =>
      match stripLit (h ++ ".ndtv.com/".data) r with
      | some rest => pathTailMatch rest
      | none => false)

/-! ## Families of documents exercising the boundary extractors

Each `doc*` document embeds a payload `a` between the variant's
boundary markers and then repeats the end marker once more after a
second payload `b`, so that the first and the last end-marker
occurrence differ. -/

/-- A www/profit-variant document with two end-marker occurrences. -/
def docWWW (a b : List Char) : List Char :=
  "__html5playerdata".data ++ " = ".data ++ a
    ++ ",__right_margin_top".data ++ b ++ ",__right_margin_top".data

/-- A khabar-variant document with two end-marker occurrences. -/
def docKhabar (a b : List Char) : List Char :=
  "__html5playerdata".data ++ " = ".data ++ a ++ " ;if".data ++ b ++ " ;if".data

/-- An auto-variant document with two end-marker occurrences. -/
def docAuto (a b : List Char) : List Char :=
  "videoPlayerScript(".data ++ a ++ ");".data ++ b ++ ");".data

/-- A movies/food/swirlster-variant document with two end-marker
occurrences. -/
def docMovies (a b : List Char) : List Char :=
  "__html5playerdata".data ++ " = ".data ++ a ++ ",__html5".data ++ b ++ ",__html5".data

/-- A sports-variant document with two end-marker occurrences. -/
def docSports (a b : List Char) : List Char :=
  "__html5playerdata".data ++ " = ".data ++ a
    ++ " var __by_line".data ++ b ++ " var __by_line".data

/-- A gadgets-variant document with two end-marker occurrences. -/
def docGadgets (a b : List Char) : List Char :=
  "__html5playerdata".data ++ " = ".data ++ a
    ++ "; var __right".data ++ b ++ "; var __right".data

/-- Does the tail predicate fail on every proper suffix of the text
(used to certify that a greedy capture cannot extend further). -/
def noTailProperSuffix (tailP : List Char → Bool) : List Char → Bool
  | [] => true
  | _ :: cs => !tailP cs && noTailProperSuffix tailP cs

/-! ## Concrete fixture documents -/

/-- A page with the given raw text, no meta tags and no open-graph
tags. -/
def mkPage (t : String) : Page :=
  { text := t.data, meta := [], ogTitle := none, ogDescription := none, ogThumbnail := none }

/-- A document containing none of the variants' boundary markers nor
any inline field pattern. -/
def pageNoLiteral : Page :=
  mkPage "a plain document without any embedded player data"

/-- A www-variant document whose literal parses but carries neither an
id nor a media key. -/
def pageC1 : Page := mkPage "__html5playerdata = \x7bx:1\x7d, __right_margin_top"

/-- A document that kept its meta tags and open-graph tags but lost the
embedded literal. -/
def pageC3 : Page :=
  { text := "a page keeping its meta tags but no embedded literal".data
    meta := [("publish-date", "2017-10-20"), ("uploadDate", "2017-10-21")]
    ogTitle := some "Kept Title"
    ogDescription := some "Kept description"
    ogThumbnail := some "http://x/t.jpg" }

/-- An auto-variant document whose player-data text is not a literal. -/
def pageC4auto : Page := mkPage "videoPlayerScript(not a literal); tail"

/-- A movies-variant document whose player-data text is not a literal. -/
def pageC4movies : Page := mkPage "__html5playerdata = not a literal,__html5 tail"

/-- An auto-variant document whose literal has a title but no
description. -/
def pageC4auto2 : Page := mkPage "videoPlayerScript(\x7btitle:'Present'\x7d); tail"

/-- A movies-variant document whose literal has a title but no
description. -/
def pageC4movies2 : Page := mkPage "__html5playerdata = \x7btitle:'Present'\x7d,__html5 tail"

/-- A www-variant document with a clock-formatted `dur` value. -/
def pageC5www : Page :=
  mkPage "__html5playerdata = \x7bid:'7', media:'m.mp4', dur:'12:34'\x7d, __right_margin_top"

/-- A khabar-variant document with a clock-formatted `dur` value. -/
def pageC5khabar : Page :=
  mkPage "__html5playerdata = \x7bid:'10', media:'m.mp4', dur:'12:34'\x7d ; if (x)"

/-- A sports-variant document with a clock-formatted `dur` value. -/
def pageC5sports : Page :=
  mkPage "__html5playerdata = \x7bid:'8', media:'m.mp4', dur:'12:34'\x7d var __by_line"

/-- A gadgets-variant document with a clock-formatted `dur` value. -/
def pageC5gadgets : Page :=
  mkPage "__html5playerdata = \x7bid:'9', media:'m.mp4', dur:'12:34'\x7d;  var __rightx"

/-- A doctor-variant document with a clock-formatted `dur` value. -/
def pageC5doctor : Page :=
  mkPage "\"media\" : \"m.mp4\" \"dur\": \"12:34\" \"title\" : \"T\""

/-- A URL from the www variant's fixture set. -/
def urlC6 : List Char := "https://www.ndtv.com/video/news/sample-story-470372".data

/-- A khabar-variant page that lost its literal but kept a parseable
`publish-date` meta tag. -/
def pageC7 : Page :=
  { text := "khabar page without its literal".data
    meta := [("publish-date", "2017-09-28")]
    ogTitle := some "T", ogDescription := none, ogThumbnail := none }

/-- A www-variant page with literal and a `publish-date` meta tag. -/
def pageC7a : Page :=
  { text := "__html5playerdata = \x7bid:'1', media:'m'\x7d, __right_margin_top".data
    meta := [("publish-date", "2017-10-20"), ("uploadDate", "2017-10-21")]
    ogTitle := none, ogDescription := none, ogThumbnail := none }

/-- A www-variant page with literal and only an `uploadDate` meta tag. -/
def pageC7b : Page :=
  { text := "__html5playerdata = \x7bid:'2', media:'m'\x7d, __right_margin_top".data
    meta := [("uploadDate", "2017-10-21")]
    ogTitle := none, ogDescription := none, ogThumbnail := none }

/-- A www-variant page with literal, no meta dates, but an inline
`datePublished` field. -/
def pageC7c : Page :=
  mkPage "__html5playerdata = \x7bid:'3', media:'m'\x7d, __right_margin_top datePublished\" : \"2017-10-22T10:00:00\""

/-- A doctor-variant document whose only title source is an open-graph
title carrying plus-encoded spaces. -/
def pageC8doc : Page :=
  { text := "only \"media\" : \"m.mp4\" here".data
    meta := [], ogTitle := some "A+B", ogDescription := none, ogThumbnail := none }

/-- A www-variant document whose literal title contains a plus. -/
def pageC8www : Page := mkPage "__html5playerdata = \x7btitle:'Hi+There'\x7d, __right_margin_top"

/-- An auto-variant document whose literal title and description are
percent/plus-encoded. -/
def pageC8auto : Page := mkPage "videoPlayerScript(\x7btitle:'Hi+There', description:'c%2Fd'\x7d);"

/-- A movies-variant document whose literal title and description are
percent/plus-encoded. -/
def pageC8movies : Page :=
  mkPage "__html5playerdata = \x7btitle:'Hi+There', description:'c%2Fd'\x7d,__html5"

/-- A doctor-variant document with a title pattern but no media
pattern. -/
def pageC9nomedia : Page :=
  mkPage "doctor page with no media pattern but a \"title\" : \"T\" present"

/-- A doctor-variant document on which extraction succeeds. -/
def pageC9ok : Page := mkPage "\"title\" : \"T\" \"media\" : \"m.mp4\""

/-- A doctor-variant document with an open-graph description carrying
the boilerplate suffix. -/
def pageC10 : Page :=
  { text := "\"title\" : \"T\" \"media\" : \"m.mp4\"".data
    meta := [], ogTitle := none
    ogDescription := some "Nice show (Read more)", ogThumbnail := none }

/-! ## Basic lemmas about the text machinery -/

theorem stripLit_append (l r : List Char) : stripLit l (l ++ r) = some r := by
  induction l with
  | nil => rfl
  | cons c ls ih => simp [stripLit, ih]

theorem stripLit_eq_append {l s r : List Char} (h : stripLit l s = some r) :
    s = l ++ r := by
  induction l generalizing s with
  | nil => simpa [stripLit] using h
  | cons c ls ih =>
    cases s with
    | nil => exact absurd h (by simp [stripLit])
    | cons x xs =>
      by_cases hx : c = x
      · subst hx
        simp only [stripLit, if_pos rfl] at h
        simpa using ih h
      · simp [stripLit, hx] at h

theorem scanFirst_of_head {f : List Char → Option α} {s : List Char} {r : α}
    (h : f s = some r) : scanFirst f s = some r := by
  cases s with
  | nil => simpa [scanFirst] using h
  | cons c cs => simp [scanFirst, h, Option.orElse]

theorem skipWS_not_ws {c : Char} (h : isWS c = false) (cs : List Char) :
    skipWS (c :: cs) = c :: cs := by
  simp [skipWS, h]

theorem wsBT_not_ws {f : List Char → Option α} {c : Char} (h : isWS c = false)
    (cs : List Char) : wsBT f (c :: cs) = f (c :: cs) := by
  simp [wsBT, h]

theorem ws_chars {c : Char} (h : isWS c = true) :
    c = ' ' ∨ c = '\t' ∨ c = '\n' ∨ c = '\r' ∨ c = '\x0b' ∨ c = '\x0c' := by
  simpa [isWS, or_assoc] using h

theorem digit_not_ws {c : Char} (h : c.isDigit = true) : isWS c = false := by
  cases hw : isWS c with
  | false => rfl
  | true =>
    exfalso
    rcases ws_chars hw with rfl | rfl | rfl | rfl | rfl | rfl <;>
      exact absurd h (by decide)

theorem digit_ne_nl {c : Char} (h : c.isDigit = true) : c ≠ '\n' := by
  intro he; subst he; exact absurd h (by decide)

theorem digit_ne_of {c : Char} (x : Char) (h : c.isDigit = true) (hx : x.isDigit = false) :
    c ≠ x := by
  intro he; subst he; rw [h] at hx; exact Bool.noConfusion hx

theorem digits_no_nl {l : List Char} (h : l.all Char.isDigit = true) :
    l.all (· != '\n') = true := by
  rw [List.all_eq_true] at h ⊢
  intro c hc
  simpa using digit_ne_nl (h c hc)

theorem replaceNL_of_no_nl {s : List Char} (h : s.all (· != '\n') = true) :
    replaceNL s = s := by
  rw [List.all_eq_true] at h
  induction s with
  | nil => rfl
  | cons c cs ih =>
    have hc : c ≠ '\n' := by simpa using h c (by simp)
    simp only [replaceNL, List.map_cons, if_neg hc]
    have := ih (fun x hx => h x (by simp [hx]))
    simpa [replaceNL] using this

/-! ## The capture combinators on well-separated documents -/

theorem capNG_digits {tailP : List Char → Bool}
    (hdig : ∀ (c : Char) (cs : List Char), c.isDigit = true → tailP (c :: cs) = false) :
    ∀ (a acc t : List Char), a ≠ [] → a.all Char.isDigit = true → tailP t = true →
      capNG tailP acc (a ++ t) = some (acc ++ a) := by
  intro a
  induction a with
  | nil => intro acc t h; exact absurd rfl h
  | cons c a' ih =>
    intro acc t _ hall ht
    rw [List.all_cons, Bool.and_eq_true] at hall
    obtain ⟨hc, ha'⟩ := hall
    rw [List.cons_append]
    show capNG tailP acc (c :: (a' ++ t)) = some (acc ++ c :: a')
    cases a' with
    | nil =>
      simp [capNG, digit_ne_nl hc, ht]
    | cons c2 a'' =>
      have hc2 : c2.isDigit = true := by
        rw [List.all_cons, Bool.and_eq_true] at ha'; exact ha'.1
      have h2 : tailP (c2 :: (a'' ++ t)) = false := hdig c2 _ hc2
      have hrec := ih (acc ++ [c]) t (by simp) ha' ht
      rw [capNG, if_neg (digit_ne_nl hc), List.cons_append, h2]
      rw [if_neg (by simp)]
      rw [← List.cons_append, hrec]
      simp

theorem capG_no_suffix {tailP : List Char → Bool} :
    ∀ t : List Char, noTailProperSuffix tailP t = true → capG tailP t = none := by
  intro t
  induction t with
  | nil => intro _; rfl
  | cons c cs ih =>
    intro h
    rw [noTailProperSuffix, Bool.and_eq_true, Bool.not_eq_true'] at h
    obtain ⟨h1, h2⟩ := h
    simp [capG, ih h2, h1]

theorem capG_longest {tailP : List Char → Bool} :
    ∀ (w t : List Char), w ≠ [] → w.all (· != '\n') = true →
      tailP t = true → noTailProperSuffix tailP t = true →
      capG tailP (w ++ t) = some w := by
  intro w
  induction w with
  | nil => intro t h; exact absurd rfl h
  | cons c w' ih =>
    intro t _ hall ht hnt
    rw [List.all_cons, Bool.and_eq_true] at hall
    obtain ⟨hc, hw'⟩ := hall
    have hcnl : c ≠ '\n' := by simpa using hc
    cases w' with
    | nil =>
      simp [capG, hcnl, capG_no_suffix t hnt, ht]
    | cons c2 w'' =>
      have hrec := ih t (by simp) hw' ht hnt
      rw [List.cons_append]
      rw [capG, if_neg hcnl, hrec]

/-! ## Per-variant facts about the end-marker tails -/

theorem tailWWW_digit (c : Char) (cs : List Char) (h : c.isDigit = true) :
    tailWWW (c :: cs) = false := by
  simp [tailWWW, stripChar, digit_ne_of ',' h (by decide)]

theorem tailWWW_at (x : List Char) : tailWWW (",__right_margin_top".data ++ x) = true := rfl

theorem tailKhabar_digit (c : Char) (cs : List Char) (h : c.isDigit = true) :
    tailKhabar (c :: cs) = false := by
  rw [tailKhabar, skipWS_not_ws (digit_not_ws h)]
  simp [stripChar, digit_ne_of ';' h (by decide)]

theorem tailKhabar_at (x : List Char) : tailKhabar (" ;if".data ++ x) = true := rfl

theorem tailAuto_digit (c : Char) (cs : List Char) (h : c.isDigit = true) :
    tailAuto (c :: cs) = false := by
  have hv : ')' ≠ c := (digit_ne_of ')' h (by decide)).symm
  simp [tailAuto, stripLit, hv]

theorem tailAuto_at (x : List Char) : tailAuto (");".data ++ x) = true := rfl

theorem tailMovies_at : tailMovies ",__html5".data = true := rfl

theorem tailMovies_no_suffix : noTailProperSuffix tailMovies ",__html5".data = true := by
  decide

theorem tailSports_digit (c : Char) (cs : List Char) (h : c.isDigit = true) :
    tailSports (c :: cs) = false := by
  rw [tailSports, skipWS_not_ws (digit_not_ws h)]
  have hv : 'v' ≠ c := (digit_ne_of 'v' h (by decide)).symm
  have : stripLit "var".data (c :: cs) = none := by simp [stripLit, hv]
  rw [this]

theorem tailSports_at (x : List Char) : tailSports (" var __by_line".data ++ x) = true := rfl

theorem tailGadgets_digit (c : Char) (cs : List Char) (h : c.isDigit = true) :
    tailGadgets (c :: cs) = false := by
  simp [tailGadgets, stripChar, digit_ne_of ';' h (by decide)]

theorem tailGadgets_at (x : List Char) : tailGadgets ("; var __right".data ++ x) = true := rfl

/-! ## The shared pipeline on a marker-led document -/

theorem playerdataSearch_doc {capF : List Char → Option (List Char)} {c : Char}
    {z : List Char} {r : List Char} (hc : isWS c = false) (h : capF (c :: z) = some r) :
    playerdataSearch capF ("__html5playerdata".data ++ (" = ".data ++ (c :: z))) = some r := by
  unfold playerdataSearch
  apply scanFirst_of_head
  rw [stripLit_append]
  show wsBT capF (' ' :: c :: z) = some r
  rw [wsBT, if_pos (show isWS ' ' = true from rfl), wsBT_not_ws hc, h]

theorem no_nl_append {x y : List Char} (hx : x.all (· != '\n') = true)
    (hy : y.all (· != '\n') = true) : (x ++ y).all (· != '\n') = true := by
  simp [List.all_append, hx, hy]

theorem all_digits_head {c : Char} {a : List Char}
    (h : (c :: a).all Char.isDigit = true) : c.isDigit = true := by
  rw [List.all_cons, Bool.and_eq_true] at h; exact h.1

theorem all_digits_tail {c : Char} {a : List Char}
    (h : (c :: a).all Char.isDigit = true) : a.all Char.isDigit = true := by
  rw [List.all_cons, Bool.and_eq_true] at h; exact h.2

/-! ## The boundary extractors on the two-end-marker document families -/

theorem wwwSearch_doc {a : List Char} (b : List Char) (h0 : a ≠ [])
    (ha : a.all Char.isDigit = true) :
    NDTVIE_playerdata (docWWW a b) = some a := by
  obtain ⟨c, a', rfl⟩ := List.exists_cons_of_ne_nil h0
  have hc := all_digits_head ha
  rw [NDTVIE_playerdata, docWWW]
  simp only [List.append_assoc, List.cons_append]
  apply playerdataSearch_doc (digit_not_ws hc)
  rw [← List.cons_append]
  have := capNG_digits tailWWW_digit (c :: a') []
    (",__right_margin_top".data ++ (b ++ ",__right_margin_top".data))
    h0 ha (tailWWW_at _)
  simpa [List.append_assoc] using this

theorem khabarSearch_doc {a : List Char} (b : List Char) (h0 : a ≠ [])
    (ha : a.all Char.isDigit = true) :
    NDTVKhabarIE_playerdata (docKhabar a b) = some a := by
  obtain ⟨c, a', rfl⟩ := List.exists_cons_of_ne_nil h0
  have hc := all_digits_head ha
  rw [NDTVKhabarIE_playerdata, docKhabar]
  simp only [List.append_assoc, List.cons_append]
  apply playerdataSearch_doc (digit_not_ws hc)
  rw [← List.cons_append]
  have := capNG_digits tailKhabar_digit (c :: a') []
    (" ;if".data ++ (b ++ " ;if".data)) h0 ha (tailKhabar_at _)
  simpa [List.append_assoc] using this

theorem sportsSearch_doc {a : List Char} (b : List Char) (h0 : a ≠ [])
    (ha : a.all Char.isDigit = true) (hb : b.all Char.isDigit = true) :
    NDTVSportsIE_playerdata (docSports a b) = some a := by
  obtain ⟨c, a', rfl⟩ := List.exists_cons_of_ne_nil h0
  have hc := all_digits_head ha
  rw [NDTVSportsIE_playerdata, replaceNL_of_no_nl (by
    exact no_nl_append (no_nl_append (no_nl_append (no_nl_append
      (by decide) (digits_no_nl ha)) (by decide)) (digits_no_nl hb)) (by decide))]
  rw [docSports]
  simp only [List.append_assoc, List.cons_append]
  apply playerdataSearch_doc (digit_not_ws hc)
  rw [← List.cons_append]
  have := capNG_digits tailSports_digit (c :: a') []
    (" var __by_line".data ++ (b ++ " var __by_line".data)) h0 ha (tailSports_at _)
  simpa [List.append_assoc] using this

theorem gadgetsSearch_doc {a : List Char} (b : List Char) (h0 : a ≠ [])
    (ha : a.all Char.isDigit = true) (hb : b.all Char.isDigit = true) :
    NDTVGadgetsIE_playerdata (docGadgets a b) = some a := by
  obtain ⟨c, a', rfl⟩ := List.exists_cons_of_ne_nil h0
  have hc := all_digits_head ha
  rw [NDTVGadgetsIE_playerdata, replaceNL_of_no_nl (by
    exact no_nl_append (no_nl_append (no_nl_append (no_nl_append
      (by decide) (digits_no_nl ha)) (by decide)) (digits_no_nl hb)) (by decide))]
  rw [docGadgets]
  simp only [List.append_assoc, List.cons_append]
  apply playerdataSearch_doc (digit_not_ws hc)
  rw [← List.cons_append]
  have := capNG_digits tailGadgets_digit (c :: a') []
    ("; var __right".data ++ (b ++ "; var __right".data)) h0 ha (tailGadgets_at _)
  simpa [List.append_assoc] using this

theorem autoSearch_doc {a : List Char} (b : List Char) (h0 : a ≠ [])
    (ha : a.all Char.isDigit = true) (hb : b.all Char.isDigit = true) :
    NDTVAutoIE_playerdata (docAuto a b) = some a := by
  rw [NDTVAutoIE_playerdata, replaceNL_of_no_nl (by
    exact no_nl_append (no_nl_append (no_nl_append (no_nl_append
      (by decide) (digits_no_nl ha)) (by decide)) (digits_no_nl hb)) (by decide))]
  apply scanFirst_of_head
  rw [docAuto]
  simp only [List.append_assoc]
  show Option.bind
    (stripLit "videoPlayerScript(".data
      ("videoPlayerScript(".data ++ (a ++ (");".data ++ (b ++ ");".data)))))
    (capNG tailAuto []) = some a
  rw [stripLit_append]
  show capNG tailAuto [] (a ++ (");".data ++ (b ++ ");".data))) = some a
  have := capNG_digits tailAuto_digit a [] (");".data ++ (b ++ ");".data))
    h0 ha (tailAuto_at _)
  simpa using this

theorem moviesSearch_doc {a : List Char} (b : List Char) (h0 : a ≠ [])
    (ha : a.all Char.isDigit = true) (hb : b.all Char.isDigit = true) :
    NDTVMoviesFoodSwirlsterIE_playerdata (docMovies a b) =
      some (a ++ ",__html5".data ++ b) := by
  obtain ⟨c, a', rfl⟩ := List.exists_cons_of_ne_nil h0
  have hc := all_digits_head ha
  rw [NDTVMoviesFoodSwirlsterIE_playerdata, replaceNL_of_no_nl (by
    exact no_nl_append (no_nl_append (no_nl_append (no_nl_append
      (by decide) (digits_no_nl ha)) (by decide)) (digits_no_nl hb)) (by decide))]
  rw [docMovies]
  simp only [List.append_assoc, List.cons_append]
  apply playerdataSearch_doc (digit_not_ws hc)
  have hw : (c :: (a' ++ (",__html5".data ++ b))).all (· != '\n') = true := by
    rw [List.all_cons, Bool.and_eq_true]
    exact ⟨by simpa using digit_ne_nl hc,
      no_nl_append (digits_no_nl (all_digits_tail ha))
        (no_nl_append (by decide) (digits_no_nl hb))⟩
  have hG := capG_longest (c :: (a' ++ (",__html5".data ++ b))) ",__html5".data
    (by simp) hw tailMovies_at tailMovies_no_suffix
  simpa [List.append_assoc] using hG

/-! ## Claim C2 -/

/-- C2 (counterexample): the movies/food/swirlster variant's pattern
`__html5playerdata\s*=\s*(.+),\s*__html5` is greedy, so on a document
with two end-marker occurrences it captures up to the LAST one, not the
text strictly between the first start marker and the first end marker
after it that the claim describes (the spec-side non-greedy reading is
`specFirstBetween`, which returns the shorter span). -/
theorem C2_counterexample :
    NDTVMoviesFoodSwirlsterIE_playerdata
        "__html5playerdata = \x7ba:1\x7d,__html5 junk,__html5".data =
      some "\x7ba:1\x7d,__html5 junk".data ∧
    specFirstBetween "__html5playerdata = ".data ",__html5".data
        "__html5playerdata = \x7ba:1\x7d,__html5 junk,__html5".data =
      some "\x7ba:1\x7d".data ∧
    ("\x7ba:1\x7d,__html5 junk".data : List Char) ≠ "\x7ba:1\x7d".data :=
  ⟨rfl, rfl, by decide⟩

/-- C2 (amended): on a document embedding a payload `a` between the
variant's boundary markers and repeating the end marker after a second
payload `b`, the www/profit, khabar, auto, sports and gadgets variants
extract non-greedily — the text strictly between the first start marker
and the first end-marker occurrence after it, namely `a` — but the
movies/food/swirlster variant is greedy on the end marker and extracts
the longest span, up to the last end-marker occurrence. -/
theorem C2_boundary_nongreedy_except_movies (a b : List Char) (h0 : a ≠ [])
    (ha : a.all Char.isDigit = true) (hb : b.all Char.isDigit = true) :
    NDTVIE_playerdata (docWWW a b) = some a ∧
    NDTVKhabarIE_playerdata (docKhabar a b) = some a ∧
    NDTVAutoIE_playerdata (docAuto a b) = some a ∧
    NDTVSportsIE_playerdata (docSports a b) = some a ∧
    NDTVGadgetsIE_playerdata (docGadgets a b) = some a ∧
    NDTVMoviesFoodSwirlsterIE_playerdata (docMovies a b) =
      some (a ++ ",__html5".data ++ b) :=
  ⟨wwwSearch_doc b h0 ha, khabarSearch_doc b h0 ha, autoSearch_doc b h0 ha hb,
    sportsSearch_doc b h0 ha hb, gadgetsSearch_doc b h0 ha hb,
    moviesSearch_doc b h0 ha hb⟩

/-- Witness for C2 at the concrete payloads `42` and `7`. -/
theorem C2_boundary_nongreedy_except_movies_witness :
    NDTVIE_playerdata (docWWW ['4', '2'] ['7']) = some ['4', '2'] ∧
    NDTVKhabarIE_playerdata (docKhabar ['4', '2'] ['7']) = some ['4', '2'] ∧
    NDTVAutoIE_playerdata (docAuto ['4', '2'] ['7']) = some ['4', '2'] ∧
    NDTVSportsIE_playerdata (docSports ['4', '2'] ['7']) = some ['4', '2'] ∧
    NDTVGadgetsIE_playerdata (docGadgets ['4', '2'] ['7']) = some ['4', '2'] ∧
    NDTVMoviesFoodSwirlsterIE_playerdata (docMovies ['4', '2'] ['7']) =
      some (['4', '2'] ++ ",__html5".data ++ ['7']) :=
  C2_boundary_nongreedy_except_movies ['4', '2'] ['7'] (by decide) (by decide) (by decide)

/-! ## Claim C1 -/

/-- C1 (counterexample): on a www-variant document whose literal parses
but carries neither an id nor a media key, the engine returns a record
whose `id` and `url` are both missing — not a typed
`MissingRequiredField` failure and not a record with required fields
populated, contradicting the claim. -/
theorem C1_counterexample :
    NDTVIE_real_extract pageC1 = some ({} : InfoDict) ∧
    ({} : InfoDict).id = none ∧ ({} : InfoDict).url = none :=
  ⟨rfl, rfl, rfl⟩

/-- C1 (amended): the engine never produces a typed failure: when the
literal is found but yields no media URL under either key, it still
returns a record, with `url = none` and whatever the literal gave for
`id` (possibly nothing). -/
theorem C1_no_typed_failures (p : Page) (pd : List Char)
    (h : NDTVIE_playerdata p.text = some pd)
    (h1 : dictGet ((parseJsLiteral pd).getD []) "media_mp4" = none)
    (h2 : dictGet ((parseJsLiteral pd).getD []) "media" = none) :
    ∃ d : InfoDict, NDTVIE_real_extract p = some d ∧ d.url = none ∧
      d.id = dictGet ((parseJsLiteral pd).getD []) "id" := by
  unfold NDTVIE_real_extract
  rw [h]
  exact ⟨_, rfl, by show jOr _ _ = none; rw [h1, h2]; rfl, rfl⟩

/-- Witness for C1 on the concrete fixture `pageC1`. -/
theorem C1_no_typed_failures_witness :
    NDTVIE_playerdata pageC1.text = some "\x7bx:1\x7d".data ∧
    ∃ d : InfoDict, NDTVIE_real_extract pageC1 = some d ∧ d.url = none ∧
      d.id = dictGet ((parseJsLiteral "\x7bx:1\x7d".data).getD []) "id" :=
  ⟨rfl, C1_no_typed_failures pageC1 "\x7bx:1\x7d".data rfl rfl rfl⟩

/-! ## Claim C3 -/

/-- C3 (counterexample): on a document that kept a parseable
`publish-date` meta tag and its open-graph tags but lost the embedded
literal, extraction returns the empty record — `title` and
`uploadDate` are NOT populated from the meta-tag fallbacks,
contradicting the claim. -/
theorem C3_counterexample :
    html_search_meta "publish-date" pageC3 = some "2017-10-20" ∧
    unified_strdate (html_search_meta "publish-date" pageC3) = some "20171020" ∧
    pageC3.ogTitle = some "Kept Title" ∧
    NDTVIE_real_extract pageC3 = none :=
  ⟨rfl, rfl, rfl, rfl⟩

/-- C3 (amended): absence of the boundary markers is NOT recovered by
any fallback: whenever the player-data pattern does not match, the www
engine returns the empty record, whatever meta tags the document
keeps. -/
theorem C3_no_fallback_without_literal (p : Page)
    (h : NDTVIE_playerdata p.text = none) : NDTVIE_real_extract p = none := by
  unfold NDTVIE_real_extract
  rw [h]

/-- Witness for C3 on the concrete fixture `pageC3`. -/
theorem C3_no_fallback_without_literal_witness :
    NDTVIE_real_extract pageC3 = none :=
  C3_no_fallback_without_literal pageC3 rfl

/-! ## Inversion of a successful doctor-variant extraction -/

theorem doctor_ok_shape {vid : String} {p : Page} {r : InfoDict} {out : List String}
    (h : NDTVDoctorIE_real_extract vid p = .ok (r, out)) :
    ∃ tsrc m, doctorTitleSource p = .ok tsrc ∧ searchDoctorMedia p.text = some m ∧
      r = { id := some (.str vid), url := some (.str m),
            title := some (.str ⟨unquoteStr tsrc.data⟩),
            description := (doctorDescription p).map .str,
            duration := parse_duration ((searchDoctorDur p.text).map .str),
            upload_date := uploadDateChain p,
            thumbnail := og_search_thumbnail p } ∧
      out = [pyShow (doctorDescription p)] := by
  unfold NDTVDoctorIE_real_extract at h
  cases ht : doctorTitleSource p with
  | error e => rw [ht] at h; exact absurd h (by simp)
  | ok tsrc =>
    rw [ht] at h
    cases hm : doctorMedia p with
    | error e => rw [hm] at h; exact absurd h (by simp)
    | ok u =>
      rw [hm] at h
      have hp := Except.ok.inj h
      have h1 : _ = r := congrArg Prod.fst hp
      have h2 : _ = out := congrArg Prod.snd hp
      refine ⟨tsrc, u, rfl, ?_, h1.symm, h2.symm⟩
      unfold doctorMedia at hm
      cases hs : searchDoctorMedia p.text with
      | none => rw [hs] at hm; exact absurd hm (by simp)
      | some s => rw [hs] at hm; rw [Except.ok.inj hm]

/-! ## Claim C5 -/

/-- C5 (counterexample): the www/profit variant converts `dur` with
`int_or_none`, not the clock-capable duration normalizer, so a document
whose literal has `dur:'12:34'` yields a record with NO duration —
while the duration normalizer itself would give 754 seconds —
contradicting "a clock-formatted 'dur' value such as '12:34' yields 754
seconds on every variant". -/
theorem C5_counterexample :
    NDTVIE_real_extract pageC5www =
      some { id := some (.str "7"), url := some (.str "m.mp4"),
             title := none, description := none, duration := none,
             upload_date := none, thumbnail := none } ∧
    parse_duration (some (.str "12:34")) = some 754 ∧
    int_or_none (some (.str "12:34")) = none :=
  ⟨rfl, rfl, rfl⟩

/-- C5 (amended): only the variants that call the clock-capable
normalizer `parse_duration` — sports, gadgets and doctor — turn a
clock-formatted `dur` value `12:34` into 754 seconds; the www/profit
and khabar variants convert `dur` with `int_or_none`, which omits the
field on a clock string; unparseable input always yields an omitted
field, never an error. -/
theorem C5_duration_normalizer_by_variant :
    (∀ (p : Page) (pd : List Char), NDTVSportsIE_playerdata p.text = some pd →
      dictGet ((parseJsLiteral pd).getD []) "dur" = some (.str "12:34") →
      ∃ d, NDTVSportsIE_real_extract p = some d ∧ d.duration = some 754) ∧
    (∀ (p : Page) (pd : List Char), NDTVGadgetsIE_playerdata p.text = some pd →
      dictGet ((parseJsLiteral pd).getD []) "dur" = some (.str "12:34") →
      ∃ d, NDTVGadgetsIE_real_extract p = some d ∧ d.duration = some 754) ∧
    (∀ (vid : String) (p : Page) (r : InfoDict) (out : List String),
      NDTVDoctorIE_real_extract vid p = .ok (r, out) →
      searchDoctorDur p.text = some "12:34" → r.duration = some 754) ∧
    (∀ (p : Page) (pd : List Char), NDTVIE_playerdata p.text = some pd →
      dictGet ((parseJsLiteral pd).getD []) "dur" = some (.str "12:34") →
      ∃ d, NDTVIE_real_extract p = some d ∧ d.duration = none) ∧
    (∀ (p : Page) (pd : List Char), NDTVKhabarIE_playerdata p.text = some pd →
      dictGet ((parseJsLiteral pd).getD []) "dur" = some (.str "12:34") →
      ∃ d, NDTVKhabarIE_real_extract p = some d ∧ d.duration = none) := by
  refine ⟨?_, ?_, ?_, ?_, ?_⟩
  · intro p pd h h2
    unfold NDTVSportsIE_real_extract
    rw [h]
    refine ⟨_, rfl, ?_⟩
    show parse_duration (dictGet ((parseJsLiteral pd).getD []) "dur") = some 754
    rw [h2]
    rfl
  · intro p pd h h2
    unfold NDTVGadgetsIE_real_extract
    rw [h]
    refine ⟨_, rfl, ?_⟩
    show parse_duration (dictGet ((parseJsLiteral pd).getD []) "dur") = some 754
    rw [h2]
    rfl
  · intro vid p r out h h2
    obtain ⟨tsrc, m, _, _, hr, _⟩ := doctor_ok_shape h
    subst hr
    show parse_duration ((searchDoctorDur p.text).map .str) = some 754
    rw [h2]
    rfl
  · intro p pd h h2
    unfold NDTVIE_real_extract
    rw [h]
    refine ⟨_, rfl, ?_⟩
    show int_or_none (dictGet ((parseJsLiteral pd).getD []) "dur") = none
    rw [h2]
    rfl
  · intro p pd h h2
    unfold NDTVKhabarIE_real_extract
    rw [h]
    refine ⟨_, rfl, ?_⟩
    show int_or_none (dictGet ((parseJsLiteral pd).getD []) "dur") = none
    rw [h2]
    rfl

/-- Witness for C5 on the concrete fixtures. -/
theorem C5_duration_normalizer_by_variant_witness :
    (∃ d, NDTVSportsIE_real_extract pageC5sports = some d ∧ d.duration = some 754) ∧
    (∃ d, NDTVGadgetsIE_real_extract pageC5gadgets = some d ∧ d.duration = some 754) ∧
    ({ id := some (.str "5"), url := some (.str "m.mp4"),
       title := some (.str "T"), description := none, duration := some 754,
       upload_date := none, thumbnail := none } : InfoDict).duration = some 754 ∧
    (∃ d, NDTVIE_real_extract pageC5www = some d ∧ d.duration = none) ∧
    (∃ d, NDTVKhabarIE_real_extract pageC5khabar = some d ∧ d.duration = none) :=
  ⟨C5_duration_normalizer_by_variant.1 pageC5sports
      "\x7bid:'8', media:'m.mp4', dur:'12:34'\x7d".data rfl rfl,
   C5_duration_normalizer_by_variant.2.1 pageC5gadgets
      "\x7bid:'9', media:'m.mp4', dur:'12:34'\x7d".data rfl rfl,
   C5_duration_normalizer_by_variant.2.2.1 "5" pageC5doctor _ ["None"] rfl rfl,
   C5_duration_normalizer_by_variant.2.2.2.1 pageC5www
      "\x7bid:'7', media:'m.mp4', dur:'12:34'\x7d".data rfl rfl,
   C5_duration_normalizer_by_variant.2.2.2.2 pageC5khabar
      "\x7bid:'10', media:'m.mp4', dur:'12:34'\x7d".data rfl rfl⟩

/-! ## Claim C4 -/

/-- C4: for the auto and movies/food/swirlster variants, when the
boundary match succeeds but the parsed mapping lacks the `title` key
(in particular when parsing failed entirely and the mapping defaulted
to empty), or has a title but lacks `description`, percent/plus
decoding is applied to a missing value and the extraction raises an
untyped `TypeError` instead of returning a record or a typed failure. -/
theorem C4_unquote_missing_faults :
    (∀ (p : Page) (pd : List Char), NDTVAutoIE_playerdata p.text = some pd →
      dictGet ((parseJsLiteral pd).getD []) "title" = none →
      NDTVAutoIE_real_extract p = .error .typeError) ∧
    (∀ (p : Page) (pd : List Char) (t : String), NDTVAutoIE_playerdata p.text = some pd →
      dictGet ((parseJsLiteral pd).getD []) "title" = some (.str t) →
      dictGet ((parseJsLiteral pd).getD []) "description" = none →
      NDTVAutoIE_real_extract p = .error .typeError) ∧
    (∀ (p : Page) (pd : List Char), NDTVMoviesFoodSwirlsterIE_playerdata p.text = some pd →
      dictGet ((parseJsLiteral pd).getD []) "title" = none →
      NDTVMoviesFoodSwirlsterIE_real_extract p = .error .typeError) ∧
    (∀ (p : Page) (pd : List Char) (t : String),
      NDTVMoviesFoodSwirlsterIE_playerdata p.text = some pd →
      dictGet ((parseJsLiteral pd).getD []) "title" = some (.str t) →
      dictGet ((parseJsLiteral pd).getD []) "description" = none →
      NDTVMoviesFoodSwirlsterIE_real_extract p = .error .typeError) := by
  refine ⟨?_, ?_, ?_, ?_⟩
  · intro p pd h h2
    unfold NDTVAutoIE_real_extract
    rw [h]
    simp only [h2]
    rfl
  · intro p pd t h h2 h3
    unfold NDTVAutoIE_real_extract
    rw [h]
    simp only [h2, h3]
    rfl
  · intro p pd h h2
    unfold NDTVMoviesFoodSwirlsterIE_real_extract
    rw [h]
    simp only [h2]
    rfl
  · intro p pd t h h2 h3
    unfold NDTVMoviesFoodSwirlsterIE_real_extract
    rw [h]
    simp only [h2, h3]
    rfl

/-- Witness for C4 on the concrete fixtures. -/
theorem C4_unquote_missing_faults_witness :
    NDTVAutoIE_real_extract pageC4auto = .error .typeError ∧
    NDTVAutoIE_real_extract pageC4auto2 = .error .typeError ∧
    NDTVMoviesFoodSwirlsterIE_real_extract pageC4movies = .error .typeError ∧
    NDTVMoviesFoodSwirlsterIE_real_extract pageC4movies2 = .error .typeError :=
  ⟨C4_unquote_missing_faults.1 pageC4auto "not a literal".data rfl rfl,
   C4_unquote_missing_faults.2.1 pageC4auto2 "\x7btitle:'Present'\x7d".data "Present" rfl rfl rfl,
   C4_unquote_missing_faults.2.2.1 pageC4movies "not a literal".data rfl rfl,
   C4_unquote_missing_faults.2.2.2 pageC4movies2 "\x7btitle:'Present'\x7d".data "Present"
     rfl rfl rfl⟩

/-! ## Claim C7 -/

/-- C7 (counterexample): on a khabar document that lost its literal but
kept a parseable `publish-date` meta tag, the upload-date candidates
are never consulted and the record comes back empty, contradicting
"for every variant and every document, the uploadDate field is resolved
by trying candidates". -/
theorem C7_counterexample :
    html_search_meta "publish-date" pageC7 = some "2017-09-28" ∧
    unified_strdate (some "2017-09-28") = some "20170928" ∧
    NDTVKhabarIE_real_extract pageC7 = none :=
  ⟨rfl, rfl, rfl⟩

/-- C7 (amended): whenever a record is produced (the literal was found,
or always for the doctor variant), the upload date is resolved by
trying, in order, the `publish-date` meta attribute, then `uploadDate`,
then the inline `datePublished` pattern, the first non-empty candidate
being normalized by the date normalizer; when the literal is absent the
non-doctor variants return the empty record without consulting any
candidate. -/
theorem C7_upload_date_chain :
    (∀ (p : Page) (pd : List Char) (s : String), NDTVIE_playerdata p.text = some pd →
      html_search_meta "publish-date" p = some s → s ≠ "" →
      ∃ d, NDTVIE_real_extract p = some d ∧ d.upload_date = unified_strdate (some s)) ∧
    (∀ (p : Page) (pd : List Char) (s : String), NDTVIE_playerdata p.text = some pd →
      html_search_meta "publish-date" p = none →
      html_search_meta "uploadDate" p = some s → s ≠ "" →
      ∃ d, NDTVIE_real_extract p = some d ∧ d.upload_date = unified_strdate (some s)) ∧
    (∀ (p : Page) (pd : List Char), NDTVIE_playerdata p.text = some pd →
      html_search_meta "publish-date" p = none →
      html_search_meta "uploadDate" p = none →
      ∃ d, NDTVIE_real_extract p = some d ∧
        d.upload_date = unified_strdate (searchDatePublished p.text)) ∧
    (∀ (vid : String) (p : Page) (r : InfoDict) (out : List String),
      NDTVDoctorIE_real_extract vid p = .ok (r, out) →
      r.upload_date = uploadDateChain p) := by
  refine ⟨?_, ?_, ?_, ?_⟩
  · intro p pd s h h2 h3
    unfold NDTVIE_real_extract
    rw [h]
    refine ⟨_, rfl, ?_⟩
    show uploadDateChain p = unified_strdate (some s)
    simp [uploadDateChain, h2, sOr, h3]
  · intro p pd s h h2 h3 h4
    unfold NDTVIE_real_extract
    rw [h]
    refine ⟨_, rfl, ?_⟩
    show uploadDateChain p = unified_strdate (some s)
    simp [uploadDateChain, h2, h3, sOr, h4]
  · intro p pd h h2 h3
    unfold NDTVIE_real_extract
    rw [h]
    refine ⟨_, rfl, ?_⟩
    show uploadDateChain p = unified_strdate (searchDatePublished p.text)
    simp [uploadDateChain, h2, h3, sOr]
  · intro vid p r out h
    obtain ⟨tsrc, m, _, _, hr, _⟩ := doctor_ok_shape h
    subst hr
    rfl

/-- Witness for C7 on the concrete fixtures. -/
theorem C7_upload_date_chain_witness :
    (∃ d, NDTVIE_real_extract pageC7a = some d ∧
      d.upload_date = unified_strdate (some "2017-10-20")) ∧
    (∃ d, NDTVIE_real_extract pageC7b = some d ∧
      d.upload_date = unified_strdate (some "2017-10-21")) ∧
    (∃ d, NDTVIE_real_extract pageC7c = some d ∧
      d.upload_date = unified_strdate (searchDatePublished pageC7c.text)) ∧
    ({ id := some (.str "467396"), url := some (.str "m.mp4"),
       title := some (.str "T"), description := none, duration := none,
       upload_date := none, thumbnail := none } : InfoDict).upload_date =
      uploadDateChain pageC9ok :=
  ⟨C7_upload_date_chain.1 pageC7a "\x7bid:'1', media:'m'\x7d".data "2017-10-20"
      rfl rfl (by decide),
   C7_upload_date_chain.2.1 pageC7b "\x7bid:'2', media:'m'\x7d".data "2017-10-21"
      rfl rfl rfl (by decide),
   C7_upload_date_chain.2.2.1 pageC7c "\x7bid:'3', media:'m'\x7d".data rfl rfl rfl,
   C7_upload_date_chain.2.2.2 "467396" pageC9ok _ ["None"] rfl⟩

theorem doctorTitleSource_error {p : Page} {e : PyFault}
    (h : doctorTitleSource p = .error e) : e = .extractorError := by
  unfold doctorTitleSource at h
  cases hs : searchDoctorTitle p.text with
  | none =>
    rw [hs] at h
    unfold og_search_title at h
    cases ho : p.ogTitle with
    | none => rw [ho] at h; exact (Except.error.inj h).symm
    | some s => rw [ho] at h; exact absurd h (by simp)
  | some s =>
    simp only [hs] at h
    by_cases he : s = ""
    · rw [if_pos he] at h
      unfold og_search_title at h
      cases ho : p.ogTitle with
      | none => rw [ho] at h; exact (Except.error.inj h).symm
      | some s2 => rw [ho] at h; exact absurd h (by simp)
    · rw [if_neg he] at h; exact absurd h (by simp)

/-! ## Claim C8 -/

/-- C8 (counterexample): on a doctor-variant document whose only title
source is the open-graph title `A+B`, the returned title is the
DECODED `A B`: the open-graph fallback is percent/plus-decoded on this
variant, contradicting "for every variant a title or description
sourced via meta-tag or open-graph fallback is returned without
percent/plus-decoding". -/
theorem C8_counterexample :
    searchDoctorTitle pageC8doc.text = none ∧
    pageC8doc.ogTitle = some "A+B" ∧
    (NDTVDoctorIE_real_extract "8" pageC8doc).toOption.map (fun ro => ro.1.title) =
      some (some (.str "A B")) :=
  ⟨rfl, rfl, rfl⟩

/-- C8 (amended): structured-lookup titles and descriptions are
percent/plus-decoded exactly on the auto and movies/food/swirlster
variants and passed through verbatim on the www variant — but the
doctor variant additionally decodes its title whatever its source,
including the open-graph fallback. -/
theorem C8_unquote_by_variant :
    (∀ (p : Page) (pd : List Char) (s : String), NDTVIE_playerdata p.text = some pd →
      dictGet ((parseJsLiteral pd).getD []) "title" = some (.str s) →
      ∃ d, NDTVIE_real_extract p = some d ∧ d.title = some (.str s)) ∧
    (∀ (p : Page) (pd : List Char) (s s2 : String), NDTVAutoIE_playerdata p.text = some pd →
      dictGet ((parseJsLiteral pd).getD []) "title" = some (.str s) →
      dictGet ((parseJsLiteral pd).getD []) "description" = some (.str s2) →
      ∃ d, NDTVAutoIE_real_extract p = .ok (some d) ∧
        d.title = some (.str ⟨unquoteStr s.data⟩) ∧
        d.description = some (.str ⟨unquoteStr s2.data⟩)) ∧
    (∀ (p : Page) (pd : List Char) (s s2 : String),
      NDTVMoviesFoodSwirlsterIE_playerdata p.text = some pd →
      dictGet ((parseJsLiteral pd).getD []) "title" = some (.str s) →
      dictGet ((parseJsLiteral pd).getD []) "description" = some (.str s2) →
      ∃ d, NDTVMoviesFoodSwirlsterIE_real_extract p = .ok (some d) ∧
        d.title = some (.str ⟨unquoteStr s.data⟩) ∧
        d.description = some (.str ⟨unquoteStr s2.data⟩)) ∧
    (∀ (vid : String) (p : Page) (s : String) (r : InfoDict) (out : List String),
      searchDoctorTitle p.text = none → p.ogTitle = some s →
      NDTVDoctorIE_real_extract vid p = .ok (r, out) →
      r.title = some (.str ⟨unquoteStr s.data⟩)) := by
  refine ⟨?_, ?_, ?_, ?_⟩
  · intro p pd s h h2
    unfold NDTVIE_real_extract
    rw [h]
    exact ⟨_, rfl, h2⟩
  · intro p pd s s2 h h2 h3
    unfold NDTVAutoIE_real_extract
    rw [h]
    simp only [h2, h3]
    exact ⟨_, rfl, rfl, rfl⟩
  · intro p pd s s2 h h2 h3
    unfold NDTVMoviesFoodSwirlsterIE_real_extract
    rw [h]
    simp only [h2, h3]
    exact ⟨_, rfl, rfl, rfl⟩
  · intro vid p s r out h1 h2 h3
    obtain ⟨tsrc, m, htitle, _, hr, _⟩ := doctor_ok_shape h3
    have hts : doctorTitleSource p = .ok s := by
      unfold doctorTitleSource
      rw [h1]
      unfold og_search_title
      rw [h2]
    rw [htitle] at hts
    have he := Except.ok.inj hts
    subst he
    subst hr
    rfl

/-- Witness for C8 on the concrete fixtures. -/
theorem C8_unquote_by_variant_witness :
    (∃ d, NDTVIE_real_extract pageC8www = some d ∧
      d.title = some (.str "Hi+There")) ∧
    (∃ d, NDTVAutoIE_real_extract pageC8auto = .ok (some d) ∧
      d.title = some (.str "Hi There") ∧ d.description = some (.str "c/d")) ∧
    (∃ d, NDTVMoviesFoodSwirlsterIE_real_extract pageC8movies = .ok (some d) ∧
      d.title = some (.str "Hi There") ∧ d.description = some (.str "c/d")) ∧
    ({ id := some (.str "8"), url := some (.str "m.mp4"),
       title := some (.str "A B"), description := none, duration := none,
       upload_date := none, thumbnail := none } : InfoDict).title =
      some (.str "A B") :=
  ⟨C8_unquote_by_variant.1 pageC8www "\x7btitle:'Hi+There'\x7d".data "Hi+There" rfl rfl,
   C8_unquote_by_variant.2.1 pageC8auto
     "\x7btitle:'Hi+There', description:'c%2Fd'\x7d".data "Hi+There" "c%2Fd" rfl rfl rfl,
   C8_unquote_by_variant.2.2.1 pageC8movies
     "\x7btitle:'Hi+There', description:'c%2Fd'\x7d".data "Hi+There" "c%2Fd" rfl rfl rfl,
   C8_unquote_by_variant.2.2.2 "8" pageC8doc "A+B" _ ["None"] rfl rfl rfl⟩

/-! ## Claim C9 -/

/-- C9: the doctor variant's media lookup is fatal — a document without
the `"media":"..."` pattern makes `_real_extract` raise an extraction
error (whichever way the title was resolved) — and its returned id
always equals the identifier captured from the URL, whereas each of the
six other variants returns the empty record when its boundary marker
search fails. -/
theorem C9_doctor_fatal_media :
    (∀ (vid : String) (p : Page), searchDoctorMedia p.text = none →
      NDTVDoctorIE_real_extract vid p = .error .extractorError) ∧
    (∀ (vid : String) (p : Page) (r : InfoDict) (out : List String),
      NDTVDoctorIE_real_extract vid p = .ok (r, out) → r.id = some (.str vid)) ∧
    (∀ p : Page, NDTVIE_playerdata p.text = none → NDTVIE_real_extract p = none) ∧
    (∀ p : Page, NDTVKhabarIE_playerdata p.text = none →
      NDTVKhabarIE_real_extract p = none) ∧
    (∀ p : Page, NDTVAutoIE_playerdata p.text = none →
      NDTVAutoIE_real_extract p = .ok none) ∧
    (∀ p : Page, NDTVMoviesFoodSwirlsterIE_playerdata p.text = none →
      NDTVMoviesFoodSwirlsterIE_real_extract p = .ok none) ∧
    (∀ p : Page, NDTVSportsIE_playerdata p.text = none →
      NDTVSportsIE_real_extract p = none) ∧
    (∀ p : Page, NDTVGadgetsIE_playerdata p.text = none →
      NDTVGadgetsIE_real_extract p = none) := by
  refine ⟨?_, ?_, ?_, ?_, ?_, ?_, ?_, ?_⟩
  · intro vid p h
    unfold NDTVDoctorIE_real_extract
    cases ht : doctorTitleSource p with
    | error e => rw [doctorTitleSource_error ht]
    | ok tsrc =>
      have hm : doctorMedia p = .error .extractorError := by
        unfold doctorMedia; rw [h]
      rw [hm]
  · intro vid p r out h
    obtain ⟨tsrc, m, _, _, hr, _⟩ := doctor_ok_shape h
    subst hr
    rfl
  · intro p h; unfold NDTVIE_real_extract; rw [h]
  · intro p h; unfold NDTVKhabarIE_real_extract; rw [h]
  · intro p h; unfold NDTVAutoIE_real_extract; rw [h]
  · intro p h; unfold NDTVMoviesFoodSwirlsterIE_real_extract; rw [h]
  · intro p h; unfold NDTVSportsIE_real_extract; rw [h]
  · intro p h; unfold NDTVGadgetsIE_real_extract; rw [h]

/-- Witness for C9 on the concrete fixtures. -/
theorem C9_doctor_fatal_media_witness :
    NDTVDoctorIE_real_extract "9" pageC9nomedia = .error .extractorError ∧
    ({ id := some (.str "467396"), url := some (.str "m.mp4"),
       title := some (.str "T"), description := none, duration := none,
       upload_date := none, thumbnail := none } : InfoDict).id =
      some (.str "467396") ∧
    NDTVIE_real_extract pageNoLiteral = none ∧
    NDTVKhabarIE_real_extract pageNoLiteral = none ∧
    NDTVAutoIE_real_extract pageNoLiteral = .ok none ∧
    NDTVMoviesFoodSwirlsterIE_real_extract pageNoLiteral = .ok none ∧
    NDTVSportsIE_real_extract pageNoLiteral = none ∧
    NDTVGadgetsIE_real_extract pageNoLiteral = none :=
  ⟨C9_doctor_fatal_media.1 "9" pageC9nomedia rfl,
   C9_doctor_fatal_media.2.1 "467396" pageC9ok _ ["None"] rfl,
   C9_doctor_fatal_media.2.2.1 pageNoLiteral rfl,
   C9_doctor_fatal_media.2.2.2.1 pageNoLiteral rfl,
   C9_doctor_fatal_media.2.2.2.2.1 pageNoLiteral rfl,
   C9_doctor_fatal_media.2.2.2.2.2.1 pageNoLiteral rfl,
   C9_doctor_fatal_media.2.2.2.2.2.2.1 pageNoLiteral rfl,
   C9_doctor_fatal_media.2.2.2.2.2.2.2 pageNoLiteral rfl⟩

/-! ## Claim C10 -/

/-- C10: every successful doctor-variant extraction writes the cleaned
description text (what Python `print` shows for it) to standard output
in addition to carrying it in the returned record: the extraction is
not free of observable output effects. -/
theorem C10_doctor_prints_description (vid : String) (p : Page) (r : InfoDict)
    (out : List String) (h : NDTVDoctorIE_real_extract vid p = .ok (r, out)) :
    out = [pyShow (doctorDescription p)] ∧
    r.description = (doctorDescription p).map JVal.str := by
  obtain ⟨tsrc, m, _, _, hr, ho⟩ := doctor_ok_shape h
  subst hr
  exact ⟨ho, rfl⟩

/-- Witness for C10 on the concrete fixture `pageC10`. -/
theorem C10_doctor_prints_description_witness :
    (["Nice show"] : List String) = [pyShow (doctorDescription pageC10)] ∧
    ({ id := some (.str "10"), url := some (.str "m.mp4"),
       title := some (.str "T"), description := some (.str "Nice show"),
       duration := none, upload_date := none,
       thumbnail := none } : InfoDict).description =
      (doctorDescription pageC10).map JVal.str :=
  C10_doctor_prints_description "10" pageC10 _ ["Nice show"] rfl

/-! ## Claim C6 -/

/-- No host of one variant, extended with `.ndtv.com/`, is a prefix of
a host of a different variant so extended. -/
theorem hosts_incompat :
    ∀ (i j : Fin 7), i ≠ j → ∀ h1 ∈ hostAlts i, ∀ h2 ∈ hostAlts j,
      (stripLit (h1 ++ ".ndtv.com/".data) (h2 ++ ".ndtv.com/".data)).isSome = false := by
  decide

/-- C6: router mutual exclusivity — at most one of the seven variants'
`_VALID_URL` patterns matches any given URL, so variant selection does
not depend on evaluation order. -/
theorem C6_router_exclusive (url : List Char) (i j : Fin 7)
    (hi : validURLMatch i url = true) (hj : validURLMatch j url = true) : i = j := by
  by_contra hne
  unfold validURLMatch at hi hj
  cases hs : schemeRest url with
  | none => rw [hs] at hi; exact absurd hi (by simp)
  | some r =>
    rw [hs] at hi hj
    rw [List.any_eq_true] at hi hj
    obtain ⟨h1, hm1, hp1⟩ := hi
    obtain ⟨h2, hm2, hp2⟩ := hj
    cases e1 : stripLit (h1 ++ ".ndtv.com/".data) r with
    | none => rw [e1] at hp1; exact absurd hp1 (by simp)
    | some r1 =>
      cases e2 : stripLit (h2 ++ ".ndtv.com/".data) r with
      | none => rw [e2] at hp2; exact absurd hp2 (by simp)
      | some r2 =>
        have q1 := stripLit_eq_append e1
        have q2 := stripLit_eq_append e2
        have hq : (h1 ++ ".ndtv.com/".data) ++ r1 = (h2 ++ ".ndtv.com/".data) ++ r2 := by
          rw [← q1, ← q2]
        rcases List.append_eq_append_iff.mp hq with ⟨a2, ha2, _⟩ | ⟨c2, hc2, _⟩
        · have hpre : (stripLit (h1 ++ ".ndtv.com/".data)
              (h2 ++ ".ndtv.com/".data)).isSome = true := by
            rw [ha2, stripLit_append]; rfl
          rw [hosts_incompat i j hne h1 hm1 h2 hm2] at hpre
          exact Bool.noConfusion hpre
        · have hpre : (stripLit (h2 ++ ".ndtv.com/".data)
              (h1 ++ ".ndtv.com/".data)).isSome = true := by
            rw [hc2, stripLit_append]; rfl
          rw [hosts_incompat j i (Ne.symm hne) h2 hm2 h1 hm1] at hpre
          exact Bool.noConfusion hpre

/-- Witness for C6: a www-variant fixture URL does match its own
pattern, so the exclusivity theorem's hypotheses are satisfiable. -/
theorem C6_router_exclusive_witness :
    validURLMatch 0 urlC6 = true ∧ (0 : Fin 7) = 0 :=
  ⟨by decide, C6_router_exclusive urlC6 0 0 (by decide) (by decide)⟩

end Ndtv
